import Mathlib

/-!
Verification of the builder layer of the snow Noise-protocol crate
(`src/noise.rs`): the `CryptoResolver` abstraction, the `DefaultResolver`,
and `NoiseBuilder` with its `build` validation pipeline.

Byte strings are modelled as `List Nat`; machine bytes never overflow here
because the builder only copies them.  Fallible Rust functions returning
`Result<T>` are modelled as `Except ErrorKind T`; a Rust panic (out-of-bounds
index, slice-length mismatch) is modelled as `Option.none` where a claim is
about it.  Types that live in other modules of the crate (`params`, `error`,
`types`, `cipherstate`, `handshakestate`, `session`) are modelled from the
spec and are marked as such in their doc comments.
-/

namespace Snow

/-- Modelled from the spec: the fixed PSK length (`constants::PSKLEN`,
not among the sources); the spec fixes it to 32 bytes. -/
def PSKLEN : Nat := 32

/-- Modelled from the spec: the maximum supported DH public/private key
length (`constants::MAXDHLEN`, not among the sources); key-material slots
are fixed-capacity buffers of this size. -/
def MAXDHLEN : Nat := 56

/-- Modelled from the spec: the DH algorithm-choice enum (`params`, not among
the sources) — a closed set containing `Curve25519` plus extension variants;
one extra variant is included to witness the extensible part. -/
inductive DHChoice
  | Curve25519
  | Ed448
deriving DecidableEq

/-- Modelled from the spec: the hash algorithm-choice enum (`params`, not
among the sources). -/
inductive HashChoice
  | SHA256
  | SHA512
  | Blake2s
  | Blake2b
deriving DecidableEq

/-- Modelled from the spec: the cipher algorithm-choice enum (`params`, not
among the sources). -/
inductive CipherChoice
  | ChaChaPoly
  | AESGCM
deriving DecidableEq

/-- Modelled from the spec: base handshake patterns (`params`, not among the
sources); we include the patterns the spec names (`NN`, `NK`, `XX`, `IK`). -/
inductive HandshakePattern
  | NN
  | NK
  | XX
  | IK
deriving DecidableEq

/-- Modelled from the spec: Pattern Table query "does role R need a local
static key to run this pattern" — true when the role's own static key takes
part in the handshake (`X`/`I`/`K` position for that role). -/
def HandshakePattern.needs_local_static_key : HandshakePattern → Bool → Bool
  | HandshakePattern.NN, _ => false
  | HandshakePattern.NK, initiator => !initiator
  | HandshakePattern.XX, _ => true
  | HandshakePattern.IK, _ => true

/-- Modelled from the spec: Pattern Table query "does role R need the peer's
static key known in advance" — true for patterns where the peer's static key
is not transmitted during the handshake (`K` in the peer's position). -/
def HandshakePattern.need_known_remote_pubkey : HandshakePattern → Bool → Bool
  | HandshakePattern.NN, _ => false
  | HandshakePattern.NK, initiator => initiator
  | HandshakePattern.XX, _ => false
  | HandshakePattern.IK, initiator => initiator

/-- Modelled from the spec: the handshake-choice part of a protocol
descriptor (base pattern; modifiers are irrelevant to the builder claims). -/
structure HandshakeChoice where
  pattern : HandshakePattern
deriving DecidableEq

/-- Modelled from the spec: the protocol descriptor (`params::NoiseParams`,
not among the sources): handshake choice plus DH/cipher/hash choices. -/
structure NoiseParams where
  handshake : HandshakeChoice
  dh : DHChoice
  cipher : CipherChoice
  hash : HashChoice
deriving DecidableEq

/-- Modelled from the spec: the `error` module's prerequisite kinds. -/
inductive Prerequisite
  | LocalPrivateKey
  | RemotePublicKey
deriving DecidableEq

/-- Modelled from the spec: the `error` module's initialization stages used
by `noise.rs`. -/
inductive InitStage
  | ValidatePskLengths
  | GetRngImpl
  | GetDhImpl
  | GetCipherImpl
  | GetHashImpl
deriving DecidableEq

/-- Modelled from the spec: the `error` module's error kinds used by
`noise.rs`. -/
inductive ErrorKind
  | Init (stage : InitStage)
  | Prereq (p : Prerequisite)
deriving DecidableEq

/-- Modelled from the spec: a `Random` capability instance.  The concrete
randomness source is out of scope; we model an instance as a byte stream. -/
structure Random where
  fill : Nat → Nat

/-- Modelled from the spec: a `Dh` capability instance — fixed key lengths
plus the currently installed private key bytes. -/
structure Dh where
  priv_len : Nat
  pub_len : Nat
  priv : List Nat
deriving DecidableEq

/-- Modelled from the spec: `Dh.set(privkey_bytes)` installs the supplied
private-key bytes into the instance. -/
def Dh.set (d : Dh) (k : List Nat) : Dh :=
  { d with priv := k }

/-- Modelled from the spec: `Dh.generate(rng)` fills the private key with
`priv_len` bytes drawn from the RNG. -/
def Dh.generate (d : Dh) (rng : Random) : Dh :=
  { d with priv := (List.range d.priv_len).map rng.fill }

/-- Modelled from the spec: the default OS randomness source
(`RandomOs::default()`); only its presence matters to the builder claims. -/
def RandomOs.default : Random :=
  Random.mk (fun _ => 0)

/-- Modelled from the spec: the default Curve25519 DH instance
(`Dh25519::default()`), with 32-byte keys, zero-initialised. -/
def Dh25519.default : Dh :=
  Dh.mk 32 32 (List.replicate 32 0)

/-- Modelled from the spec: a `Hash` capability instance; the compression
function is out of scope, so an instance is just which algorithm it is. -/
inductive HashImpl
  | HashSHA256
  | HashSHA512
  | HashBLAKE2s
  | HashBLAKE2b
deriving DecidableEq

/-- Modelled from the spec: a `Cipher` capability instance; the AEAD
computation is out of scope, so an instance is just which algorithm it is. -/
inductive CipherImpl
  | CipherChaChaPoly
  | CipherAESGCM
deriving DecidableEq

/-- Modelled from the spec: a Cipher State — one cipher instance, an optional
key flag and an 8-byte nonce counter. -/
structure CipherState where
  cipher : CipherImpl
  has_key : Bool
  n : Nat
deriving DecidableEq

/-- Modelled from the spec: `CipherState::new` starts unkeyed with nonce 0. -/
def CipherState.new (c : CipherImpl) : CipherState :=
  CipherState.mk c false 0

/-- Modelled from the spec: the ordered pair of eventual transport cipher
states (`cipherstate::CipherStates`, not among the sources). -/
structure CipherStates where
  c1 : CipherState
  c2 : CipherState
deriving DecidableEq

/-- Modelled from the spec: `CipherStates::new` pairs the two cipher states
(the spec describes the pair itself; no failure condition is specified, so
the fallible signature always succeeds here). -/
def CipherStates.new (c1 c2 : CipherState) : Except ErrorKind CipherStates :=
  Except.ok (CipherStates.mk c1 c2)

/-- Modelled from the source's `Toggle` type (`types`, not among the
sources): a present/absent flag paired with a fixed-capacity value.  The
source's `on` field is named `enabled` here because `on` is an infix operator of the
ambient library; `Toggle::on` / `Toggle::off` are `mkOn` / `mkOff`. -/
structure Toggle (α : Type) where
  inner : α
  enabled : Bool
deriving DecidableEq

/-- Counterpart of `Toggle::on(x)`: present. -/
def Toggle.mkOn (x : α) : Toggle α :=
  Toggle.mk x true

/-- Counterpart of `Toggle::off(x)`: absent. -/
def Toggle.mkOff (x : α) : Toggle α :=
  Toggle.mk x false

/-- Modelled from the spec: the handshake state machine constructor
(`handshakestate`, not among the sources).  For the builder-level claims we
record the constructor arguments (the spec additionally mixes the prologue
into the running hash, a transcript detail outside these claims); the spec
names no failure condition at construction, so the fallible signature always
succeeds here. -/
structure HandshakeState where
  rng : Random
  cipherstate : CipherState
  hash : HashImpl
  s : Toggle Dh
  e : Toggle Dh
  fixed_ephemeral : Bool
  rs : Toggle (List Nat)
  re : Toggle (List Nat)
  initiator : Bool
  params : NoiseParams
  psks : List (Option (List Nat))
  prologue : List Nat
  cipherstates : CipherStates

/-- Modelled from the spec: `HandshakeState::new` wires all parts together. -/
def HandshakeState.new (rng : Random) (cipherstate : CipherState)
    (hash : HashImpl) (s e : Toggle Dh) (fixed_ephemeral : Bool)
    (rs re : Toggle (List Nat)) (initiator : Bool) (params : NoiseParams)
    (psks : List (Option (List Nat))) (prologue : List Nat)
    (cipherstates : CipherStates) : Except ErrorKind HandshakeState :=
  Except.ok (HandshakeState.mk rng cipherstate hash s e fixed_ephemeral
    rs re initiator params psks prologue cipherstates)

/-- Modelled from the spec: the `Session` wrapper in its handshake phase
(`session`, not among the sources); `hs.into()` wraps the handshake state. -/
structure Session where
  hs : HandshakeState

/-- The `CryptoResolver` trait (`noise.rs` lines 14-19): four independent
lookups, each returning a freshly constructed instance or `None`. -/
structure CryptoResolver where
  resolve_rng : Option Random
  resolve_dh : DHChoice → Option Dh
  resolve_hash : HashChoice → Option HashImpl
  resolve_cipher : CipherChoice → Option CipherImpl

/-- The `DefaultResolver` (`noise.rs` lines 22-50): RNG always, Curve25519
only for DH, all four hashes, both ciphers. -/
def DefaultResolver : CryptoResolver :=
  CryptoResolver.mk
    (some RandomOs.default)
    (fun choice =>
      match choice with
      | DHChoice.Curve25519 => some Dh25519.default
      | _ => none)
    (fun choice =>
      match choice with
      | HashChoice.SHA256 => some HashImpl.HashSHA256
      | HashChoice.SHA512 => some HashImpl.HashSHA512
      | HashChoice.Blake2s => some HashImpl.HashBLAKE2s
      | HashChoice.Blake2b => some HashImpl.HashBLAKE2b)
    (fun choice =>
      match choice with
      | CipherChoice.ChaChaPoly => some CipherImpl.CipherChaChaPoly
      | CipherChoice.AESGCM => some CipherImpl.CipherAESGCM)

/-- The `NoiseBuilder` struct (`noise.rs` lines 68-76): descriptor, resolver
and the optional key material accumulated by the fluent methods. -/
structure NoiseBuilder where
  params : NoiseParams
  resolver : CryptoResolver
  s : Option (List Nat)
  e_fixed : Option (List Nat)
  rs : Option (List Nat)
  psks : List (Option (List Nat))
  plog : Option (List Nat)

/-- `NoiseBuilder::with_resolver` (`noise.rs` lines 91-102). -/
def NoiseBuilder.with_resolver (params : NoiseParams)
    (resolver : CryptoResolver) : NoiseBuilder :=
  NoiseBuilder.mk params resolver none none none (List.replicate 10 none) none

/-- `NoiseBuilder::new` (`noise.rs` lines 81-83): the default resolver. -/
def NoiseBuilder.new (params : NoiseParams) : NoiseBuilder :=
  NoiseBuilder.with_resolver params DefaultResolver

/-- `NoiseBuilder::psk` (`noise.rs` lines 105-108):
`self.psks[location as usize] = Some(key)` on the 10-element array, with no
bounds check of its own — an out-of-range `location` is a Rust index panic,
modelled as `none`. -/
def NoiseBuilder.psk (b : NoiseBuilder) (location : Nat) (key : List Nat) :
    Option NoiseBuilder :=
  if location < 10 then
    some { b with psks := b.psks.set location (some key) }
  else
    none

/-- `NoiseBuilder::local_private_key` (`noise.rs` lines 111-114). -/
def NoiseBuilder.local_private_key (b : NoiseBuilder) (key : List Nat) :
    NoiseBuilder :=
  { b with s := some key }

/-- `NoiseBuilder::fixed_ephemeral_key_for_testing_only` (`noise.rs` lines
117-120). -/
def NoiseBuilder.fixed_ephemeral_key_for_testing_only (b : NoiseBuilder)
    (key : List Nat) : NoiseBuilder :=
  { b with e_fixed := some key }

/-- `NoiseBuilder::prologue` (`noise.rs` lines 123-126). -/
def NoiseBuilder.prologue (b : NoiseBuilder) (key : List Nat) : NoiseBuilder :=
  { b with plog := some key }

/-- `NoiseBuilder::remote_public_key` (`noise.rs` lines 129-132). -/
def NoiseBuilder.remote_public_key (b : NoiseBuilder) (pub_key : List Nat) :
    NoiseBuilder :=
  { b with rs := some pub_key }

/-- `NoiseBuilder::generate_private_key` (`noise.rs` lines 137-146): resolve
the RNG and a DH instance (failing with the matching `Init` stage), generate
a key pair, and return the private-key bytes. -/
def NoiseBuilder.generate_private_key (b : NoiseBuilder) :
    Except ErrorKind (List Nat) :=
  match b.resolver.resolve_rng with
  | none => Except.error (ErrorKind.Init InitStage.GetRngImpl)
  | some rng =>
    match b.resolver.resolve_dh b.params.dh with
    | none => Except.error (ErrorKind.Init InitStage.GetDhImpl)
    | some dh => Except.ok (Dh.generate dh rng).priv

/-- Installation of the local static key (`noise.rs` lines 177-185): set the
supplied bytes into the static DH instance and toggle on, or toggle off. -/
def installS (s_dh : Dh) : Option (List Nat) → Toggle Dh
  | some k => Toggle.mkOn (Dh.set s_dh k)
  | none => Toggle.mkOff s_dh

/-- Installation of the ephemeral DH instance (`noise.rs` lines 187-190): a
fixed test key is set into the instance, but the slot is toggled off either
way. -/
def installE (e_dh : Dh) : Option (List Nat) → Toggle Dh
  | some fixed_k => Toggle.mkOff (Dh.set e_dh fixed_k)
  | none => Toggle.mkOff e_dh

/-- Installation of the remote static key (`noise.rs` lines 192-199): copy
the supplied bytes into the front of a zeroed `MAXDHLEN` buffer and toggle
on, or toggle the zeroed buffer off.  (For bytes longer than `MAXDHLEN` the
source's `copy_from_slice` panics; no claim concerns that input.) -/
def installRs : Option (List Nat) → Toggle (List Nat)
  | some v => Toggle.mkOn (v ++ List.replicate (MAXDHLEN - v.length) 0)
  | none => Toggle.mkOff (List.replicate MAXDHLEN 0)

/-- PSK validation loop (`noise.rs` lines 203-213): walk the slots in order;
a supplied PSK whose length is not `PSKLEN` aborts with
`Init(ValidatePskLengths)`; valid ones are copied into the fixed-size
array. -/
def validatePsks : List (Option (List Nat)) →
    Except ErrorKind (List (Option (List Nat)))
  | [] => Except.ok []
  | none :: rest =>
    match validatePsks rest with
    | Except.error e => Except.error e
    | Except.ok out => Except.ok (none :: out)
  | some key :: rest =>
    if key.length ≠ PSKLEN then
      Except.error (ErrorKind.Init InitStage.ValidatePskLengths)
    else
      match validatePsks rest with
      | Except.error e => Except.error e
      | Except.ok out => Except.ok (some key :: out)

/-- One resolver invocation, for instrumenting the resolution phase. -/
inductive ResolveCall
  | rng
  | dh (choice : DHChoice)
  | hash (choice : HashChoice)
  | cipher (choice : CipherChoice)
deriving DecidableEq

/-- `NoiseBuilder::build` (`noise.rs` lines 158-223), instrumented with the
ordered list of resolver invocations it performs (one list entry per
`resolve_*` call on lines 167-173).  The stages, in source order: the two
prerequisite checks, the seven resolver calls (rng, cipher, hash, dh, dh,
cipher, cipher), the cipher-state wiring, key installation, the PSK length
loop, and the handshake-state construction. -/
def buildCore (b : NoiseBuilder) (initiator : Bool) :
    Except ErrorKind (Session × List ResolveCall) :=
  if !b.s.isSome && b.params.handshake.pattern.needs_local_static_key initiator then
    Except.error (ErrorKind.Prereq Prerequisite.LocalPrivateKey)
  else if !b.rs.isSome && b.params.handshake.pattern.need_known_remote_pubkey initiator then
    Except.error (ErrorKind.Prereq Prerequisite.RemotePublicKey)
  else
    match b.resolver.resolve_rng with
    | none => Except.error (ErrorKind.Init InitStage.GetRngImpl)
    | some rng =>
    match b.resolver.resolve_cipher b.params.cipher with
    | none => Except.error (ErrorKind.Init InitStage.GetCipherImpl)
    | some cipher =>
    match b.resolver.resolve_hash b.params.hash with
    | none => Except.error (ErrorKind.Init InitStage.GetHashImpl)
    | some hash1 =>
    match b.resolver.resolve_dh b.params.dh with
    | none => Except.error (ErrorKind.Init InitStage.GetDhImpl)
    | some s_dh =>
    match b.resolver.resolve_dh b.params.dh with
    | none => Except.error (ErrorKind.Init InitStage.GetDhImpl)
    | some e_dh =>
    match b.resolver.resolve_cipher b.params.cipher with
    | none => Except.error (ErrorKind.Init InitStage.GetCipherImpl)
    | some cipher1 =>
    match b.resolver.resolve_cipher b.params.cipher with
    | none => Except.error (ErrorKind.Init InitStage.GetCipherImpl)
    | some cipher2 =>
    match CipherStates.new (CipherState.new cipher1) (CipherState.new cipher2) with
    | Except.error e => Except.error e
    | Except.ok cipherstates =>
    match validatePsks b.psks with
    | Except.error e => Except.error e
    | Except.ok psks1 =>
    match HandshakeState.new rng (CipherState.new cipher) hash1
        (installS s_dh b.s) (installE e_dh b.e_fixed) b.e_fixed.isSome
        (installRs b.rs) (Toggle.mkOff (List.replicate MAXDHLEN 0))
        initiator b.params psks1 (Option.getD b.plog []) cipherstates with
    | Except.error e => Except.error e
    | Except.ok hs =>
      Except.ok (Session.mk hs,
        [ResolveCall.rng, ResolveCall.cipher b.params.cipher,
         ResolveCall.hash b.params.hash, ResolveCall.dh b.params.dh,
         ResolveCall.dh b.params.dh, ResolveCall.cipher b.params.cipher,
         ResolveCall.cipher b.params.cipher])

/-- `NoiseBuilder::build`: the session result, with the instrumentation
projected away. -/
def build (b : NoiseBuilder) (initiator : Bool) : Except ErrorKind Session :=
  match buildCore b initiator with
  | Except.ok p => Except.ok p.1
  | Except.error e => Except.error e

/-- The resolver invocations a build performs, when it completes. -/
def buildCalls (b : NoiseBuilder) (initiator : Bool) :
    Option (List ResolveCall) :=
  match buildCore b initiator with
  | Except.ok p => some p.2
  | Except.error _ => none

/-- `NoiseBuilder::build_initiator` (`noise.rs` lines 149-151). -/
def NoiseBuilder.build_initiator (b : NoiseBuilder) : Except ErrorKind Session :=
  build b true

/-- `NoiseBuilder::build_responder` (`noise.rs` lines 154-156). -/
def NoiseBuilder.build_responder (b : NoiseBuilder) : Except ErrorKind Session :=
  build b false

/-- The `Noise_NK_25519_ChaChaPoly_SHA256` descriptor. -/
def nkParams : NoiseParams :=
  NoiseParams.mk (HandshakeChoice.mk HandshakePattern.NK)
    DHChoice.Curve25519 CipherChoice.ChaChaPoly HashChoice.SHA256

/-- The `Noise_NN_25519_ChaChaPoly_SHA256` descriptor. -/
def nnParams : NoiseParams :=
  NoiseParams.mk (HandshakeChoice.mk HandshakePattern.NN)
    DHChoice.Curve25519 CipherChoice.ChaChaPoly HashChoice.SHA256

/-- The `Noise_XX_25519_ChaChaPoly_SHA256` descriptor. -/
def xxParams : NoiseParams :=
  NoiseParams.mk (HandshakeChoice.mk HandshakePattern.XX)
    DHChoice.Curve25519 CipherChoice.ChaChaPoly HashChoice.SHA256

/-- The `Noise_IK_25519_ChaChaPoly_SHA256` descriptor. -/
def ikParams : NoiseParams :=
  NoiseParams.mk (HandshakeChoice.mk HandshakePattern.IK)
    DHChoice.Curve25519 CipherChoice.ChaChaPoly HashChoice.SHA256

/-- A resolver that supports nothing, for exercising the miss paths. -/
def noneResolver : CryptoResolver :=
  CryptoResolver.mk none (fun _ => none) (fun _ => none) (fun _ => none)

/-- Inversion of a completed `buildCore`: every success resolved each of the
seven primitives, validated the PSKs, and produced exactly the session whose
slots come from the installation helpers plus the recorded call list. -/
theorem buildCore_ok_inv {b : NoiseBuilder} {initiator : Bool}
    {p : Session × List ResolveCall} (h : buildCore b initiator = Except.ok p) :
    ∃ rng ci ha s_dh e_dh ps,
      b.resolver.resolve_rng = some rng ∧
      b.resolver.resolve_cipher b.params.cipher = some ci ∧
      b.resolver.resolve_hash b.params.hash = some ha ∧
      b.resolver.resolve_dh b.params.dh = some s_dh ∧
      b.resolver.resolve_dh b.params.dh = some e_dh ∧
      validatePsks b.psks = Except.ok ps ∧
      p = (Session.mk (HandshakeState.mk rng (CipherState.new ci) ha
            (installS s_dh b.s) (installE e_dh b.e_fixed) b.e_fixed.isSome
            (installRs b.rs) (Toggle.mkOff (List.replicate MAXDHLEN 0))
            initiator b.params ps (Option.getD b.plog [])
            (CipherStates.mk (CipherState.new ci) (CipherState.new ci))),
        [ResolveCall.rng, ResolveCall.cipher b.params.cipher,
         ResolveCall.hash b.params.hash, ResolveCall.dh b.params.dh,
         ResolveCall.dh b.params.dh, ResolveCall.cipher b.params.cipher,
         ResolveCall.cipher b.params.cipher]) := by
  unfold buildCore at h
  repeat' split at h
  all_goals try exact absurd h (by intro hh; exact Except.noConfusion hh)
  rename_i hpre1 hpre2 x9 rng hrng x8 ci hci x7 ha hha x6 d1 hd1 x5 d2 hd2 x4
    c1 hc1 x3 c2 hc2 x2 cs hcs x1 ps hps x0 hs0 hhs
  injection h with h
  subst h
  injection hd2 with e1
  subst e1
  injection hc1 with e2
  subst e2
  injection hc2 with e3
  subst e3
  injection hcs with e4
  subst e4
  injection hhs with e5
  subst e5
  exact ⟨rng, ci, ha, d1, d1, ps, hrng, hci, hha, hd1, hd1, hps, rfl⟩

/-- Inversion of a successful `build`, at the session level. -/
theorem build_ok_inv {b : NoiseBuilder} {initiator : Bool} {sess : Session}
    (h : build b initiator = Except.ok sess) :
    ∃ rng ci ha s_dh e_dh ps,
      b.resolver.resolve_rng = some rng ∧
      b.resolver.resolve_cipher b.params.cipher = some ci ∧
      b.resolver.resolve_hash b.params.hash = some ha ∧
      b.resolver.resolve_dh b.params.dh = some s_dh ∧
      b.resolver.resolve_dh b.params.dh = some e_dh ∧
      validatePsks b.psks = Except.ok ps ∧
      sess = Session.mk (HandshakeState.mk rng (CipherState.new ci) ha
        (installS s_dh b.s) (installE e_dh b.e_fixed) b.e_fixed.isSome
        (installRs b.rs) (Toggle.mkOff (List.replicate MAXDHLEN 0))
        initiator b.params ps (Option.getD b.plog [])
        (CipherStates.mk (CipherState.new ci) (CipherState.new ci))) := by
  unfold build at h
  split at h
  case h_1 =>
    rename_i p hp
    injection h with h
    obtain ⟨rng, ci, ha, d1, d2, ps, hrng, hci, hha, hd1, hd2, hps, hp2⟩ :=
      buildCore_ok_inv hp
    subst hp2
    exact ⟨rng, ci, ha, d1, d2, ps, hrng, hci, hha, hd1, hd2, hps, h.symm⟩
  case h_2 =>
    exact absurd h (by intro hh; exact Except.noConfusion hh)

/-- A supplied PSK of the wrong length makes the validation loop abort with
the PSK-length error, wherever it sits in the slot array. -/
theorem validatePsks_bad {l : List (Option (List Nat))} {i : Nat}
    {k : List Nat} (hk : l.get? i = some (some k)) (hlen : k.length ≠ PSKLEN) :
    validatePsks l = Except.error (ErrorKind.Init InitStage.ValidatePskLengths) := by
  induction l generalizing i with
  | nil => exact absurd hk (by simp)
  | cons head rest ih =>
    cases i with
    | zero =>
      simp only [List.get?] at hk
      injection hk with hk
      subst hk
      simp [validatePsks, hlen]
    | succ j =>
      simp only [List.get?] at hk
      have hrest := ih hk
      cases head with
      | none => simp [validatePsks, hrest]
      | some key =>
        by_cases hkey : key.length = PSKLEN
        · simp [validatePsks, hkey, hrest]
        · simp [validatePsks, hkey]

/-- A missing-but-required local static key short-circuits build with the
LocalPrivateKey prerequisite error (`noise.rs` lines 159-161). -/
theorem build_local_prereq {b : NoiseBuilder} {initiator : Bool}
    (hs : b.s = none)
    (hneed : b.params.handshake.pattern.needs_local_static_key initiator = true) :
    build b initiator
      = Except.error (ErrorKind.Prereq Prerequisite.LocalPrivateKey) := by
  simp [build, buildCore, hs, hneed]

/-- When the local-static prerequisite is met, a missing-but-required remote
public key short-circuits build with the RemotePublicKey prerequisite error
(`noise.rs` lines 163-165). -/
theorem build_remote_prereq {b : NoiseBuilder} {initiator : Bool}
    (hs : b.params.handshake.pattern.needs_local_static_key initiator = false
          ∨ b.s.isSome = true)
    (hrs : b.rs = none)
    (hneed : b.params.handshake.pattern.need_known_remote_pubkey initiator = true) :
    build b initiator
      = Except.error (ErrorKind.Prereq Prerequisite.RemotePublicKey) := by
  have h1 : ¬(b.s = none
      ∧ b.params.handshake.pattern.needs_local_static_key initiator = true) := by
    rcases hs with h | h
    · simp [h]
    · rw [Option.isSome_iff_exists] at h
      obtain ⟨x, hx⟩ := h
      simp [hx]
  simp [build, buildCore, h1, hrs, hneed]

/-- With both prerequisites met, an unresolvable RNG fails build with the
GetRngImpl initialization error (`noise.rs` line 167). -/
theorem build_rng_miss {b : NoiseBuilder} {initiator : Bool}
    (h1 : ¬(b.s = none
      ∧ b.params.handshake.pattern.needs_local_static_key initiator = true))
    (h2 : ¬(b.rs = none
      ∧ b.params.handshake.pattern.need_known_remote_pubkey initiator = true))
    (hr : b.resolver.resolve_rng = none) :
    build b initiator = Except.error (ErrorKind.Init InitStage.GetRngImpl) := by
  simp [build, buildCore, h1, h2, hr]

/-- With the RNG resolved, an unresolvable cipher fails build with the
GetCipherImpl initialization error (`noise.rs` line 168). -/
theorem build_cipher_miss {b : NoiseBuilder} {initiator : Bool} {rng : Random}
    (h1 : ¬(b.s = none
      ∧ b.params.handshake.pattern.needs_local_static_key initiator = true))
    (h2 : ¬(b.rs = none
      ∧ b.params.handshake.pattern.need_known_remote_pubkey initiator = true))
    (hr : b.resolver.resolve_rng = some rng)
    (hc : b.resolver.resolve_cipher b.params.cipher = none) :
    build b initiator = Except.error (ErrorKind.Init InitStage.GetCipherImpl) := by
  simp [build, buildCore, h1, h2, hr, hc]

/-- With RNG and cipher resolved, an unresolvable hash fails build with the
GetHashImpl initialization error (`noise.rs` line 169). -/
theorem build_hash_miss {b : NoiseBuilder} {initiator : Bool} {rng : Random}
    {ci : CipherImpl}
    (h1 : ¬(b.s = none
      ∧ b.params.handshake.pattern.needs_local_static_key initiator = true))
    (h2 : ¬(b.rs = none
      ∧ b.params.handshake.pattern.need_known_remote_pubkey initiator = true))
    (hr : b.resolver.resolve_rng = some rng)
    (hc : b.resolver.resolve_cipher b.params.cipher = some ci)
    (hh : b.resolver.resolve_hash b.params.hash = none) :
    build b initiator = Except.error (ErrorKind.Init InitStage.GetHashImpl) := by
  simp [build, buildCore, h1, h2, hr, hc, hh]

/-- With RNG, cipher and hash resolved, an unresolvable DH fails build with
the GetDhImpl initialization error (`noise.rs` line 170). -/
theorem build_dh_miss {b : NoiseBuilder} {initiator : Bool} {rng : Random}
    {ci : CipherImpl} {ha : HashImpl}
    (h1 : ¬(b.s = none
      ∧ b.params.handshake.pattern.needs_local_static_key initiator = true))
    (h2 : ¬(b.rs = none
      ∧ b.params.handshake.pattern.need_known_remote_pubkey initiator = true))
    (hr : b.resolver.resolve_rng = some rng)
    (hc : b.resolver.resolve_cipher b.params.cipher = some ci)
    (hh : b.resolver.resolve_hash b.params.hash = some ha)
    (hd : b.resolver.resolve_dh b.params.dh = none) :
    build b initiator = Except.error (ErrorKind.Init InitStage.GetDhImpl) := by
  simp [build, buildCore, h1, h2, hr, hc, hh, hd]

/-- Once the prerequisite checks pass and every primitive resolves, a
wrong-length PSK fails build with the PSK-length validation error
(`noise.rs` lines 203-213). -/
theorem build_psk_invalid {b : NoiseBuilder} {initiator : Bool} {rng : Random}
    {ci : CipherImpl} {ha : HashImpl} {d : Dh} {i : Nat} {k : List Nat}
    (h1 : ¬(b.s = none
      ∧ b.params.handshake.pattern.needs_local_static_key initiator = true))
    (h2 : ¬(b.rs = none
      ∧ b.params.handshake.pattern.need_known_remote_pubkey initiator = true))
    (hr : b.resolver.resolve_rng = some rng)
    (hc : b.resolver.resolve_cipher b.params.cipher = some ci)
    (hh : b.resolver.resolve_hash b.params.hash = some ha)
    (hd : b.resolver.resolve_dh b.params.dh = some d)
    (hk : b.psks.get? i = some (some k)) (hlen : k.length ≠ PSKLEN) :
    build b initiator
      = Except.error (ErrorKind.Init InitStage.ValidatePskLengths) := by
  simp [build, buildCore, h1, h2, hr, hc, hh, hd, CipherStates.new,
    validatePsks_bad hk hlen]

/-- A wrong-length PSK anywhere in the slot array means build never returns
a session, whatever else the builder holds. -/
theorem build_wrong_psk_not_ok {b : NoiseBuilder} {initiator : Bool} {i : Nat}
    {k : List Nat} (hk : b.psks.get? i = some (some k))
    (hlen : k.length ≠ PSKLEN) : (build b initiator).isOk = false := by
  cases hb : build b initiator with
  | error e => rfl
  | ok sess =>
    exfalso
    obtain ⟨rng, ci, ha, d1, d2, ps, hrng, hci, hha, hd1, hd2, hps, hsess⟩ :=
      build_ok_inv hb
    rw [validatePsks_bad hk hlen] at hps
    exact Except.noConfusion hps

/-- An unresolvable RNG fails key generation with the GetRngImpl
initialization error (`noise.rs` lines 138-139). -/
theorem genkey_rng_miss {b : NoiseBuilder}
    (hr : b.resolver.resolve_rng = none) :
    b.generate_private_key = Except.error (ErrorKind.Init InitStage.GetRngImpl) := by
  simp [NoiseBuilder.generate_private_key, hr]

/-- With the RNG resolved, an unresolvable DH fails key generation with the
GetDhImpl initialization error (`noise.rs` lines 140-141). -/
theorem genkey_dh_miss {b : NoiseBuilder} {rng : Random}
    (hr : b.resolver.resolve_rng = some rng)
    (hd : b.resolver.resolve_dh b.params.dh = none) :
    b.generate_private_key = Except.error (ErrorKind.Init InitStage.GetDhImpl) := by
  simp [NoiseBuilder.generate_private_key, hr, hd]

/-- Builder of the spec's NK test: `Noise_NK_25519_ChaChaPoly_SHA256`,
initiator, no remote public key supplied. -/
def nkNoRemote : NoiseBuilder := NoiseBuilder.new nkParams

/-- The same NK builder with a remote public key supplied. -/
def nkWithRemote : NoiseBuilder :=
  (NoiseBuilder.new nkParams).remote_public_key (List.replicate 32 1)

/-- An XX builder with no local key and a wrong-length PSK in slot 0. -/
def c2Builder : NoiseBuilder :=
  Option.getD ((NoiseBuilder.new xxParams).psk 0 [1, 2, 3])
    (NoiseBuilder.new xxParams)

/-- An NK builder with no remote key and a wrong-length PSK in slot 0. -/
def c3Builder : NoiseBuilder :=
  Option.getD ((NoiseBuilder.new nkParams).psk 0 [9]) (NoiseBuilder.new nkParams)

/-- An NN builder with a wrong-length PSK in slot 0 and no other defect. -/
def nnWrongPsk : NoiseBuilder :=
  Option.getD ((NoiseBuilder.new nnParams).psk 0 [5, 5]) (NoiseBuilder.new nnParams)

/-- An XX builder with both static keys supplied. -/
def xxBuilder : NoiseBuilder :=
  ((NoiseBuilder.new xxParams).local_private_key (List.replicate 32 3)).remote_public_key
    (List.replicate 32 4)

/-- The session `xxBuilder.build_initiator` produces, written out. -/
def xxSession : Session :=
  Session.mk (HandshakeState.mk RandomOs.default
    (CipherState.new CipherImpl.CipherChaChaPoly) HashImpl.HashSHA256
    (Toggle.mk (Dh.mk 32 32 (List.replicate 32 3)) true)
    (Toggle.mk Dh25519.default false)
    false
    (Toggle.mk (List.replicate 32 4 ++ List.replicate 24 0) true)
    (Toggle.mk (List.replicate 56 0) false)
    true xxParams (List.replicate 10 none) []
    (CipherStates.mk (CipherState.new CipherImpl.CipherChaChaPoly)
      (CipherState.new CipherImpl.CipherChaChaPoly)))

/-- An NN builder with a fixed ephemeral key injected for testing. -/
def nnFixedBuilder : NoiseBuilder :=
  (NoiseBuilder.new nnParams).fixed_ephemeral_key_for_testing_only
    (List.replicate 32 7)

/-- The session `nnFixedBuilder.build_initiator` produces, written out. -/
def nnFixedSession : Session :=
  Session.mk (HandshakeState.mk RandomOs.default
    (CipherState.new CipherImpl.CipherChaChaPoly) HashImpl.HashSHA256
    (Toggle.mk Dh25519.default false)
    (Toggle.mk (Dh.mk 32 32 (List.replicate 32 7)) false)
    true
    (Toggle.mk (List.replicate 56 0) false)
    (Toggle.mk (List.replicate 56 0) false)
    true nnParams (List.replicate 10 none) []
    (CipherStates.mk (CipherState.new CipherImpl.CipherChaChaPoly)
      (CipherState.new CipherImpl.CipherChaChaPoly)))

/-- A resolver supporting only the RNG. -/
def onlyRngResolver : CryptoResolver :=
  CryptoResolver.mk (some RandomOs.default) (fun _ => none) (fun _ => none)
    (fun _ => none)

/-- A resolver supporting the RNG and the ciphers. -/
def rngCipherResolver : CryptoResolver :=
  CryptoResolver.mk (some RandomOs.default) (fun _ => none) (fun _ => none)
    DefaultResolver.resolve_cipher

/-- `Noise_NN_448_ChaChaPoly_SHA256`-style descriptor: a DH choice the
default resolver does not support. -/
def nnEd448Params : NoiseParams :=
  NoiseParams.mk (HandshakeChoice.mk HandshakePattern.NN)
    DHChoice.Ed448 CipherChoice.ChaChaPoly HashChoice.SHA256

/-- C1 (amended): if the pattern requires a local static key for the role
and none was supplied, build fails with the LocalPrivateKey prerequisite
error; if the pattern requires the remote static public key, none was
supplied, and the local-static prerequisite is met, build fails with the
RemotePublicKey prerequisite error; building Noise_NK_25519_ChaChaPoly_SHA256
as initiator without a remote public key fails with the RemotePublicKey
prerequisite error and succeeds once one is supplied. -/
theorem c1_prerequisite_validation :
    (∀ (b : NoiseBuilder) (initiator : Bool), b.s = none →
      b.params.handshake.pattern.needs_local_static_key initiator = true →
      build b initiator
        = Except.error (ErrorKind.Prereq Prerequisite.LocalPrivateKey)) ∧
    (∀ (b : NoiseBuilder) (initiator : Bool),
      (b.params.handshake.pattern.needs_local_static_key initiator = false
        ∨ b.s.isSome = true) →
      b.rs = none →
      b.params.handshake.pattern.need_known_remote_pubkey initiator = true →
      build b initiator
        = Except.error (ErrorKind.Prereq Prerequisite.RemotePublicKey)) ∧
    nkNoRemote.build_initiator
      = Except.error (ErrorKind.Prereq Prerequisite.RemotePublicKey) ∧
    (nkWithRemote.build_initiator).isOk = true :=
  ⟨fun _ _ hs hn => build_local_prereq hs hn,
   fun _ _ hok hrs hn => build_remote_prereq hok hrs hn,
   rfl, rfl⟩

/-- Witness for C1: XX initiator without a local key hits the first clause;
NK initiator with a local key but no remote key hits the second. -/
theorem c1_prerequisite_validation_witness :
    build (NoiseBuilder.new xxParams) true
      = Except.error (ErrorKind.Prereq Prerequisite.LocalPrivateKey) ∧
    build ((NoiseBuilder.new nkParams).local_private_key (List.replicate 32 2)) true
      = Except.error (ErrorKind.Prereq Prerequisite.RemotePublicKey) :=
  ⟨c1_prerequisite_validation.1 (NoiseBuilder.new xxParams) true rfl rfl,
   c1_prerequisite_validation.2.1
     ((NoiseBuilder.new nkParams).local_private_key (List.replicate 32 2)) true
     (Or.inr rfl) rfl rfl⟩

/-- Counterexample to C1 as stated: IK as initiator requires both a local
static key and a pre-known remote key; with neither supplied, the claim's
remote-key clause predicts a RemotePublicKey error, but build returns the
LocalPrivateKey error (the local check runs first). -/
theorem c1_counterexample :
    HandshakePattern.need_known_remote_pubkey HandshakePattern.IK true = true ∧
    (NoiseBuilder.new ikParams).rs = none ∧
    (NoiseBuilder.new ikParams).build_initiator
      = Except.error (ErrorKind.Prereq Prerequisite.LocalPrivateKey) ∧
    ErrorKind.Prereq Prerequisite.LocalPrivateKey
      ≠ ErrorKind.Prereq Prerequisite.RemotePublicKey :=
  ⟨rfl, rfl, rfl, by decide⟩

/-- C2 (amended): a wrong-length PSK in any slot means build never returns a
session; and when prerequisite validation passes and every primitive
resolves, the error returned is the PSK-length validation error. -/
theorem c2_psk_length_validation :
    (∀ (b : NoiseBuilder) (initiator : Bool) (i : Nat) (k : List Nat),
      b.psks.get? i = some (some k) → k.length ≠ PSKLEN →
      (build b initiator).isOk = false) ∧
    (∀ (b : NoiseBuilder) (initiator : Bool) (i : Nat) (k : List Nat)
      (rng : Random) (ci : CipherImpl) (ha : HashImpl) (d : Dh),
      ¬(b.s = none
        ∧ b.params.handshake.pattern.needs_local_static_key initiator = true) →
      ¬(b.rs = none
        ∧ b.params.handshake.pattern.need_known_remote_pubkey initiator = true) →
      b.resolver.resolve_rng = some rng →
      b.resolver.resolve_cipher b.params.cipher = some ci →
      b.resolver.resolve_hash b.params.hash = some ha →
      b.resolver.resolve_dh b.params.dh = some d →
      b.psks.get? i = some (some k) → k.length ≠ PSKLEN →
      build b initiator
        = Except.error (ErrorKind.Init InitStage.ValidatePskLengths)) :=
  ⟨fun _ _ _ _ hk hlen => build_wrong_psk_not_ok hk hlen,
   fun _ _ _ _ _ _ _ _ h1 h2 hr hc hh hd hk hlen =>
     build_psk_invalid h1 h2 hr hc hh hd hk hlen⟩

/-- Witness for C2: an NN builder whose only defect is a 2-byte PSK in slot
0 produces no session, and the error is the PSK-length validation error. -/
theorem c2_psk_length_validation_witness :
    (build nnWrongPsk true).isOk = false ∧
    build nnWrongPsk true
      = Except.error (ErrorKind.Init InitStage.ValidatePskLengths) :=
  ⟨c2_psk_length_validation.1 nnWrongPsk true 0 [5, 5] rfl (by decide),
   c2_psk_length_validation.2 nnWrongPsk true 0 [5, 5] RandomOs.default
     CipherImpl.CipherChaChaPoly HashImpl.HashSHA256 Dh25519.default
     (by decide) (by decide) rfl rfl rfl rfl rfl (by decide)⟩

/-- Counterexample to C2 as stated: an XX builder with a wrong-length PSK
and no local static key fails with the LocalPrivateKey prerequisite error,
not the PSK-length validation error. -/
theorem c2_counterexample :
    c2Builder.psks.get? 0 = some (some [1, 2, 3]) ∧
    ([1, 2, 3] : List Nat).length ≠ PSKLEN ∧
    c2Builder.build_initiator
      = Except.error (ErrorKind.Prereq Prerequisite.LocalPrivateKey) ∧
    ErrorKind.Prereq Prerequisite.LocalPrivateKey
      ≠ ErrorKind.Init InitStage.ValidatePskLengths :=
  ⟨rfl, by decide, rfl, by decide⟩

/-- C3 (amended): build validates prerequisites first, resolves primitives
second, and validates PSK lengths last; on a builder with both a wrong-length
PSK and a missing required key the error is the Prerequisite error, on one
with a wrong-length PSK and an unresolvable RNG it is the RNG initialization
error, and the PSK-length error surfaces exactly when the earlier stages
pass. -/
theorem c3_validation_order :
    (∀ (b : NoiseBuilder) (initiator : Bool) (i : Nat) (k : List Nat),
      b.psks.get? i = some (some k) → k.length ≠ PSKLEN →
      b.s = none →
      b.params.handshake.pattern.needs_local_static_key initiator = true →
      build b initiator
        = Except.error (ErrorKind.Prereq Prerequisite.LocalPrivateKey)) ∧
    (∀ (b : NoiseBuilder) (initiator : Bool) (i : Nat) (k : List Nat),
      b.psks.get? i = some (some k) → k.length ≠ PSKLEN →
      ¬(b.s = none
        ∧ b.params.handshake.pattern.needs_local_static_key initiator = true) →
      ¬(b.rs = none
        ∧ b.params.handshake.pattern.need_known_remote_pubkey initiator = true) →
      b.resolver.resolve_rng = none →
      build b initiator = Except.error (ErrorKind.Init InitStage.GetRngImpl)) ∧
    (∀ (b : NoiseBuilder) (initiator : Bool) (i : Nat) (k : List Nat)
      (rng : Random) (ci : CipherImpl) (ha : HashImpl) (d : Dh),
      b.psks.get? i = some (some k) → k.length ≠ PSKLEN →
      ¬(b.s = none
        ∧ b.params.handshake.pattern.needs_local_static_key initiator = true) →
      ¬(b.rs = none
        ∧ b.params.handshake.pattern.need_known_remote_pubkey initiator = true) →
      b.resolver.resolve_rng = some rng →
      b.resolver.resolve_cipher b.params.cipher = some ci →
      b.resolver.resolve_hash b.params.hash = some ha →
      b.resolver.resolve_dh b.params.dh = some d →
      build b initiator
        = Except.error (ErrorKind.Init InitStage.ValidatePskLengths)) :=
  ⟨fun _ _ _ _ _ _ hs hn => build_local_prereq hs hn,
   fun _ _ _ _ _ _ h1 h2 hr => build_rng_miss h1 h2 hr,
   fun _ _ _ _ _ _ _ _ hk hlen h1 h2 hr hc hh hd =>
     build_psk_invalid h1 h2 hr hc hh hd hk hlen⟩

/-- Witness for C3: the XX wrong-PSK builder without a local key returns the
prerequisite error; an NN wrong-PSK builder with an empty resolver returns
the RNG initialization error; the NN wrong-PSK builder with the default
resolver returns the PSK-length error. -/
theorem c3_validation_order_witness :
    build c2Builder true
      = Except.error (ErrorKind.Prereq Prerequisite.LocalPrivateKey) ∧
    build (Option.getD
        ((NoiseBuilder.with_resolver nnParams noneResolver).psk 0 [5, 5])
        (NoiseBuilder.with_resolver nnParams noneResolver)) true
      = Except.error (ErrorKind.Init InitStage.GetRngImpl) ∧
    build nnWrongPsk true
      = Except.error (ErrorKind.Init InitStage.ValidatePskLengths) :=
  ⟨c3_validation_order.1 c2Builder true 0 [1, 2, 3] rfl (by decide) rfl rfl,
   c3_validation_order.2.1 _ true 0 [5, 5] rfl (by decide) (by decide)
     (by decide) rfl,
   c3_validation_order.2.2 nnWrongPsk true 0 [5, 5] RandomOs.default
     CipherImpl.CipherChaChaPoly HashImpl.HashSHA256 Dh25519.default rfl
     (by decide) (by decide) (by decide) rfl rfl rfl rfl⟩

/-- Counterexample to C3 as stated: an NK initiator builder with both a
wrong-length PSK and a missing remote key returns the RemotePublicKey
prerequisite error, not the PSK-length validation error the claimed check
order would give. -/
theorem c3_counterexample :
    c3Builder.psks.get? 0 = some (some [9]) ∧
    ([9] : List Nat).length ≠ PSKLEN ∧
    c3Builder.rs = none ∧
    c3Builder.build_initiator
      = Except.error (ErrorKind.Prereq Prerequisite.RemotePublicKey) ∧
    ErrorKind.Prereq Prerequisite.RemotePublicKey
      ≠ ErrorKind.Init InitStage.ValidatePskLengths :=
  ⟨rfl, by decide, rfl, rfl, by decide⟩

/-- C4 (amended): a resolver miss makes build fail with the initialization
error naming the first unresolvable primitive in resolution order (RNG,
cipher, hash, DH): the RNG miss names GetRngImpl, a cipher miss with the RNG
resolved names GetCipherImpl, a hash miss with RNG and cipher resolved names
GetHashImpl, a DH miss with the previous three resolved names GetDhImpl;
generate_private_key likewise fails with GetRngImpl on an RNG miss and with
GetDhImpl on a DH miss once the RNG resolves. -/
theorem c4_resolver_miss_errors :
    (∀ (b : NoiseBuilder) (initiator : Bool),
      ¬(b.s = none
        ∧ b.params.handshake.pattern.needs_local_static_key initiator = true) →
      ¬(b.rs = none
        ∧ b.params.handshake.pattern.need_known_remote_pubkey initiator = true) →
      b.resolver.resolve_rng = none →
      build b initiator = Except.error (ErrorKind.Init InitStage.GetRngImpl)) ∧
    (∀ (b : NoiseBuilder) (initiator : Bool) (rng : Random),
      ¬(b.s = none
        ∧ b.params.handshake.pattern.needs_local_static_key initiator = true) →
      ¬(b.rs = none
        ∧ b.params.handshake.pattern.need_known_remote_pubkey initiator = true) →
      b.resolver.resolve_rng = some rng →
      b.resolver.resolve_cipher b.params.cipher = none →
      build b initiator = Except.error (ErrorKind.Init InitStage.GetCipherImpl)) ∧
    (∀ (b : NoiseBuilder) (initiator : Bool) (rng : Random) (ci : CipherImpl),
      ¬(b.s = none
        ∧ b.params.handshake.pattern.needs_local_static_key initiator = true) →
      ¬(b.rs = none
        ∧ b.params.handshake.pattern.need_known_remote_pubkey initiator = true) →
      b.resolver.resolve_rng = some rng →
      b.resolver.resolve_cipher b.params.cipher = some ci →
      b.resolver.resolve_hash b.params.hash = none →
      build b initiator = Except.error (ErrorKind.Init InitStage.GetHashImpl)) ∧
    (∀ (b : NoiseBuilder) (initiator : Bool) (rng : Random) (ci : CipherImpl)
      (ha : HashImpl),
      ¬(b.s = none
        ∧ b.params.handshake.pattern.needs_local_static_key initiator = true) →
      ¬(b.rs = none
        ∧ b.params.handshake.pattern.need_known_remote_pubkey initiator = true) →
      b.resolver.resolve_rng = some rng →
      b.resolver.resolve_cipher b.params.cipher = some ci →
      b.resolver.resolve_hash b.params.hash = some ha →
      b.resolver.resolve_dh b.params.dh = none →
      build b initiator = Except.error (ErrorKind.Init InitStage.GetDhImpl)) ∧
    (∀ b : NoiseBuilder, b.resolver.resolve_rng = none →
      b.generate_private_key
        = Except.error (ErrorKind.Init InitStage.GetRngImpl)) ∧
    (∀ (b : NoiseBuilder) (rng : Random),
      b.resolver.resolve_rng = some rng →
      b.resolver.resolve_dh b.params.dh = none →
      b.generate_private_key
        = Except.error (ErrorKind.Init InitStage.GetDhImpl)) :=
  ⟨fun _ _ h1 h2 hr => build_rng_miss h1 h2 hr,
   fun _ _ _ h1 h2 hr hc => build_cipher_miss h1 h2 hr hc,
   fun _ _ _ _ h1 h2 hr hc hh => build_hash_miss h1 h2 hr hc hh,
   fun _ _ _ _ _ h1 h2 hr hc hh hd => build_dh_miss h1 h2 hr hc hh hd,
   fun _ hr => genkey_rng_miss hr,
   fun _ _ hr hd => genkey_dh_miss hr hd⟩

/-- Witness for C4: each miss scenario exercised on NN builders — the empty
resolver, the RNG-only resolver, the RNG-and-cipher resolver, and the
default resolver on an unsupported DH choice, plus the two key-generation
cases. -/
theorem c4_resolver_miss_errors_witness :
    build (NoiseBuilder.with_resolver nnParams noneResolver) true
      = Except.error (ErrorKind.Init InitStage.GetRngImpl) ∧
    build (NoiseBuilder.with_resolver nnParams onlyRngResolver) true
      = Except.error (ErrorKind.Init InitStage.GetCipherImpl) ∧
    build (NoiseBuilder.with_resolver nnParams rngCipherResolver) true
      = Except.error (ErrorKind.Init InitStage.GetHashImpl) ∧
    build (NoiseBuilder.new nnEd448Params) true
      = Except.error (ErrorKind.Init InitStage.GetDhImpl) ∧
    (NoiseBuilder.with_resolver nnParams noneResolver).generate_private_key
      = Except.error (ErrorKind.Init InitStage.GetRngImpl) ∧
    (NoiseBuilder.new nnEd448Params).generate_private_key
      = Except.error (ErrorKind.Init InitStage.GetDhImpl) :=
  ⟨c4_resolver_miss_errors.1 _ true (by decide) (by decide) rfl,
   c4_resolver_miss_errors.2.1 _ true RandomOs.default (by decide) (by decide)
     rfl rfl,
   c4_resolver_miss_errors.2.2.1 _ true RandomOs.default
     CipherImpl.CipherChaChaPoly (by decide) (by decide) rfl rfl rfl,
   c4_resolver_miss_errors.2.2.2.1 _ true RandomOs.default
     CipherImpl.CipherChaChaPoly HashImpl.HashSHA256 (by decide) (by decide)
     rfl rfl rfl rfl,
   c4_resolver_miss_errors.2.2.2.2.1 _ rfl,
   c4_resolver_miss_errors.2.2.2.2.2 _ RandomOs.default rfl rfl⟩

/-- Counterexample to C4 as stated: with a resolver that supports nothing,
the cipher is unresolvable, yet build fails with GetRngImpl rather than the
GetCipherImpl error the claim assigns to a cipher miss — the error names
only the first miss in resolution order. -/
theorem c4_counterexample :
    noneResolver.resolve_cipher nnParams.cipher = none ∧
    build (NoiseBuilder.with_resolver nnParams noneResolver) true
      = Except.error (ErrorKind.Init InitStage.GetRngImpl) ∧
    ErrorKind.Init InitStage.GetRngImpl
      ≠ ErrorKind.Init InitStage.GetCipherImpl :=
  ⟨rfl, rfl, by decide⟩

/-- C5: the default resolver resolves all four hash choices and both cipher
choices to their concrete instances, resolves Curve25519 for DH, and returns
"not supported" on every other DH choice. -/
theorem c5_default_resolver_support :
    DefaultResolver.resolve_hash HashChoice.SHA256 = some HashImpl.HashSHA256 ∧
    DefaultResolver.resolve_hash HashChoice.SHA512 = some HashImpl.HashSHA512 ∧
    DefaultResolver.resolve_hash HashChoice.Blake2s = some HashImpl.HashBLAKE2s ∧
    DefaultResolver.resolve_hash HashChoice.Blake2b = some HashImpl.HashBLAKE2b ∧
    DefaultResolver.resolve_cipher CipherChoice.ChaChaPoly
      = some CipherImpl.CipherChaChaPoly ∧
    DefaultResolver.resolve_cipher CipherChoice.AESGCM
      = some CipherImpl.CipherAESGCM ∧
    DefaultResolver.resolve_dh DHChoice.Curve25519 = some Dh25519.default ∧
    (∀ choice : DHChoice, choice ≠ DHChoice.Curve25519 →
      DefaultResolver.resolve_dh choice = none) := by
  refine ⟨rfl, rfl, rfl, rfl, rfl, rfl, rfl, ?_⟩
  intro choice hc
  cases choice
  · exact absurd rfl hc
  · rfl

/-- Witness for C5: the non-Curve25519 clause evaluated at the extension
variant. -/
theorem c5_default_resolver_support_witness :
    DefaultResolver.resolve_dh DHChoice.Ed448 = none :=
  c5_default_resolver_support.2.2.2.2.2.2.2 DHChoice.Ed448 (by decide)

/-- C6: a build that completes invoked the resolver exactly once per needed
instance, in source order: one RNG call, the handshake cipher call, the hash
call, the static-DH and ephemeral-DH calls, then the two reserve transport
cipher calls — three cipher resolutions, two DH resolutions, one hash and
one RNG in total. -/
theorem c6_resolver_invocations (b : NoiseBuilder) (initiator : Bool)
    (h : (buildCore b initiator).isOk = true) :
    buildCalls b initiator = some
      [ResolveCall.rng, ResolveCall.cipher b.params.cipher,
       ResolveCall.hash b.params.hash, ResolveCall.dh b.params.dh,
       ResolveCall.dh b.params.dh, ResolveCall.cipher b.params.cipher,
       ResolveCall.cipher b.params.cipher] ∧
    (∀ calls, buildCalls b initiator = some calls →
      calls.count (ResolveCall.cipher b.params.cipher) = 3 ∧
      calls.count (ResolveCall.dh b.params.dh) = 2 ∧
      calls.count (ResolveCall.hash b.params.hash) = 1 ∧
      calls.count ResolveCall.rng = 1) := by
  cases hb : buildCore b initiator with
  | error e =>
    rw [hb] at h
    simp [Except.isOk, Except.toBool] at h
  | ok p =>
    obtain ⟨rng, ci, ha, d1, d2, ps, hrng, hci, hha, hd1, hd2, hps, hp⟩ :=
      buildCore_ok_inv hb
    subst hp
    constructor
    · simp [buildCalls, hb]
    · intro calls hc
      simp only [buildCalls, hb] at hc
      injection hc with hc
      subst hc
      refine ⟨?_, ?_, ?_, ?_⟩ <;>
        simp [List.count_cons, List.count_nil]
/-- Witness for C6: the NN default build completes and its recorded resolver
invocations are the seven expected calls. -/
theorem c6_resolver_invocations_witness :
    (buildCore (NoiseBuilder.new nnParams) true).isOk = true ∧
    buildCalls (NoiseBuilder.new nnParams) true = some
      [ResolveCall.rng, ResolveCall.cipher CipherChoice.ChaChaPoly,
       ResolveCall.hash HashChoice.SHA256, ResolveCall.dh DHChoice.Curve25519,
       ResolveCall.dh DHChoice.Curve25519,
       ResolveCall.cipher CipherChoice.ChaChaPoly,
       ResolveCall.cipher CipherChoice.ChaChaPoly] :=
  ⟨rfl, (c6_resolver_invocations (NoiseBuilder.new nnParams) true rfl).1⟩

/-- C7: in any session a successful build returns, the local static slot is
present exactly when a local private key was supplied and then holds the
supplied bytes; the remote static slot is present exactly when a remote
public key was supplied and then holds the bytes copied into the front of
the fixed-capacity buffer; unset slots, the never-settable remote ephemeral
included, are absent. -/
theorem c7_key_slot_installation (b : NoiseBuilder) (initiator : Bool)
    (sess : Session) (h : build b initiator = Except.ok sess) :
    sess.hs.s.enabled = b.s.isSome ∧
    (∀ k, b.s = some k → sess.hs.s.inner.priv = k) ∧
    sess.hs.rs.enabled = b.rs.isSome ∧
    (∀ v, b.rs = some v →
      sess.hs.rs.inner = v ++ List.replicate (MAXDHLEN - v.length) 0) ∧
    (b.rs = none → sess.hs.rs.inner = List.replicate MAXDHLEN 0) ∧
    sess.hs.re.enabled = false := by
  obtain ⟨rng, ci, ha, d1, d2, ps, hrng, hci, hha, hd1, hd2, hps, hsess⟩ :=
    build_ok_inv h
  subst hsess
  refine ⟨?_, ?_, ?_, ?_, ?_, rfl⟩
  · cases hbs : b.s <;> simp [hbs, installS, Toggle.mkOn, Toggle.mkOff]
  · intro k hk
    simp [hk, installS, Toggle.mkOn, Dh.set]
  · cases hbr : b.rs <;> simp [hbr, installRs, Toggle.mkOn, Toggle.mkOff]
  · intro v hv
    simp [hv, installRs, Toggle.mkOn]
  · intro hv
    simp [hv, installRs, Toggle.mkOff]

/-- Witness for C7: the XX builder with both keys supplied builds the
written-out session, whose slots satisfy every clause. -/
theorem c7_key_slot_installation_witness :
    xxSession.hs.s.enabled = true ∧
    xxSession.hs.s.inner.priv = List.replicate 32 3 ∧
    xxSession.hs.rs.enabled = true ∧
    xxSession.hs.rs.inner
      = List.replicate 32 4 ++ List.replicate (MAXDHLEN - 32) 0 ∧
    xxSession.hs.re.enabled = false := by
  have h : build xxBuilder true = Except.ok xxSession := rfl
  have t := c7_key_slot_installation xxBuilder true xxSession h
  exact ⟨t.1, t.2.1 (List.replicate 32 3) rfl, t.2.2.1,
    t.2.2.2.1 (List.replicate 32 4) rfl, t.2.2.2.2.2⟩

/-- C8: the psk builder method writes into the 10-slot array with no bounds
check of its own — locations 0 through 9 set the slot and return the
builder, locations 10 and above are an out-of-bounds index panic. -/
theorem c8_psk_no_bounds_check (b : NoiseBuilder) (location : Nat)
    (key : List Nat) :
    (location ≤ 9 →
      NoiseBuilder.psk b location key
        = some { b with psks := b.psks.set location (some key) }) ∧
    (10 ≤ location → NoiseBuilder.psk b location key = none) := by
  constructor
  · intro h
    have hlt : location < 10 := by omega
    simp [NoiseBuilder.psk, hlt]
  · intro h
    have hlt : ¬location < 10 := by omega
    simp [NoiseBuilder.psk, hlt]

/-- Witness for C8: location 3 sets slot 3; location 10 panics. -/
theorem c8_psk_no_bounds_check_witness :
    NoiseBuilder.psk (NoiseBuilder.new nnParams) 3 (List.replicate 32 9)
      = some { NoiseBuilder.new nnParams with
          psks := (NoiseBuilder.new nnParams).psks.set 3
            (some (List.replicate 32 9)) } ∧
    NoiseBuilder.psk (NoiseBuilder.new nnParams) 10 (List.replicate 32 9)
      = none :=
  ⟨(c8_psk_no_bounds_check (NoiseBuilder.new nnParams) 3
      (List.replicate 32 9)).1 (by decide),
   (c8_psk_no_bounds_check (NoiseBuilder.new nnParams) 10
      (List.replicate 32 9)).2 (by decide)⟩

/-- C9: never calling the prologue method and calling it with the empty byte
string build identical results, for every builder configuration and role. -/
theorem c9_no_prologue_eq_empty_prologue (b : NoiseBuilder) (initiator : Bool)
    (h : b.plog = none) :
    build b initiator = build (b.prologue []) initiator := by
  obtain ⟨params1, resolver1, s1, e1, rs1, psks1, plog1⟩ := b
  simp only at h
  subst h
  rfl

/-- Witness for C9: the NN default builder with and without an explicit
empty prologue. -/
theorem c9_no_prologue_eq_empty_prologue_witness :
    build (NoiseBuilder.new nnParams) true
      = build ((NoiseBuilder.new nnParams).prologue []) true :=
  c9_no_prologue_eq_empty_prologue (NoiseBuilder.new nnParams) true rfl

/-- C10: in any session a successful build returns, the local ephemeral slot
is absent, even when a fixed ephemeral key was injected for testing; the
injected bytes are installed in the ephemeral DH instance and the override
is signalled only by the separate fixed-ephemeral flag. -/
theorem c10_fixed_ephemeral_stays_absent (b : NoiseBuilder) (initiator : Bool)
    (sess : Session) (h : build b initiator = Except.ok sess) :
    sess.hs.e.enabled = false ∧
    sess.hs.fixed_ephemeral = b.e_fixed.isSome ∧
    (∀ k, b.e_fixed = some k → sess.hs.e.inner.priv = k) := by
  obtain ⟨rng, ci, ha, d1, d2, ps, hrng, hci, hha, hd1, hd2, hps, hsess⟩ :=
    build_ok_inv h
  subst hsess
  refine ⟨?_, rfl, ?_⟩
  · cases hbe : b.e_fixed <;> simp [hbe, installE, Toggle.mkOff]
  · intro k hk
    simp [hk, installE, Toggle.mkOff, Dh.set]

/-- Witness for C10: the NN builder with an injected fixed ephemeral key
builds the written-out session: ephemeral slot absent, flag set, bytes
installed. -/
theorem c10_fixed_ephemeral_stays_absent_witness :
    nnFixedSession.hs.e.enabled = false ∧
    nnFixedSession.hs.fixed_ephemeral = true ∧
    nnFixedSession.hs.e.inner.priv = List.replicate 32 7 := by
  have h : build nnFixedBuilder true = Except.ok nnFixedSession := rfl
  have t := c10_fixed_ephemeral_stays_absent nnFixedBuilder true nnFixedSession h
  exact ⟨t.1, t.2.1, t.2.2 (List.replicate 32 7) rfl⟩

end Snow
